import Mathlib

/-!
Shallow embedding of the revenue-projection model in `model.py`
(sigmoid physician acquisition, inverted-power confidence decay,
campaign reset via pointwise maximum, horizon extension, and the
diagnostics / treated / revenue pipeline), together with theorems
settling the specification claims about it.

Floating-point arithmetic in the source is modelled over `ℝ`; the
numpy power `x ** p` with a real exponent is `Real.rpow`, `np.exp`
is `Real.exp`, `np.log` is `Real.log`, and `np.clip`, `np.maximum`
are `min`/`max`.
-/

namespace Modelfer

noncomputable section

/-- Locked constant `CONF_T = 10`: confidence must reach 0 at 10 months. -/
def CONF_T : ℝ := 10

/-- Locked constant `CONF_P = 3.0`: the inverted-power exponent. -/
def CONF_P : ℝ := 3

/-- Locked constant `ACQ_LENGTH = 6`: sigmoid acquisition reaches the target in 6 months. -/
def ACQ_LENGTH : ℝ := 6

/-- Locked constant `EXTENSION_MONTHS = 12`: months added by one extension. -/
def EXTENSION_MONTHS : ℕ := 12

/-- Locked constant `COUT_PROJET = 50_000`: fixed project cost for the 12-month ROI. -/
def COUT_PROJET : ℝ := 50000

/-- Embedding of `sigmoid_acquisition(t, start_t, target_increment, length)`:
returns 0 when `length <= 0` or `target_increment <= 0`; otherwise a logistic
curve with steepness `k = 2 ln 99 / length` centred at `start_t + length/2`,
clipped to `[0, 1]` and scaled by `target_increment`. -/
def sigmoid_acquisition (t start_t target_increment length : ℝ) : ℝ :=
  if length ≤ 0 ∨ target_increment ≤ 0 then 0
  else target_increment * min 1 (max 0
    (1 / (1 + Real.exp (-(2 * Real.log 99 / length) * (t - (start_t + length / 2))))))

/-- Embedding of `confidence_inverted_drop(t, T, p)`: the value is
`1 - (t/T) ** p` on the mask `0 <= t <= T` and 0 elsewhere (the entries with
`t > T` are overwritten by 0, matching the initial zero array for `t < 0`),
then the whole array is clipped to `[0, 1]` by `np.clip`. -/
def confidence_inverted_drop (t : ℝ) (T : ℝ) (p : ℝ) : ℝ :=
  min 1 (max 0 (if 0 ≤ t ∧ t ≤ T then 1 - (t / T) ^ p else 0))

/-- Embedding of `confidence_with_vm_inverted(t, vm_month, T, p)`: the base
inverted-drop curve when `vm_month is None`, otherwise the pointwise maximum
of the base curve and the same curve evaluated at `tau = max(0, t - vm)`. -/
def confidence_with_vm_inverted (t : ℝ) (vm_month : Option ℝ)
    (T : ℝ) (p : ℝ) : ℝ :=
  match vm_month with
  | none => confidence_inverted_drop t T p
  | some vm => max (confidence_inverted_drop t T p)
      (confidence_inverted_drop (max 0 (t - vm)) T p)

/-- Sidebar scalar parameters: drug price, target physician count for the
current cycle, diagnostic potential per physician per month, treatment rate
in percent, and the new physicians recruited by an extension. -/
structure Params where
  prix : ℝ
  nb_med_target : ℝ
  pot_diag : ℝ
  taux_trait_pct : ℝ
  nb_med_new : ℝ

/-- Session state: current horizon (last month index), the most recent
campaign month if any, and whether a horizon extension was triggered. -/
structure ScenarioState where
  horizon : ℕ
  vm_month : Option ℕ
  extension_active : Bool

/-- Session-state defaults: `horizon = 12`, no campaign, no extension. -/
def initState : ScenarioState := ⟨12, none, false⟩

/-- Lifecycle events delivered by the sidebar buttons. -/
inductive Event where
  | TriggerCampaign (m : ℕ)
  | ExtendHorizon

/-- One button press: `Lancer une campagne VM` stores the selected month
(overwriting any prior campaign); `Ajouter +12 mois et recruter` adds
`EXTENSION_MONTHS` to the horizon and sets the extension flag. -/
def step (s : ScenarioState) : Event → ScenarioState
  | .TriggerCampaign m => ⟨s.horizon, some m, s.extension_active⟩
  | .ExtendHorizon => ⟨s.horizon + EXTENSION_MONTHS, s.vm_month, true⟩

/-- Embedding of `med_t = med_phase1 + med_phase2`: the base sigmoid wave
from month 0 towards `nb_med_target`, plus, when the extension is active, a
second sigmoid wave anchored at the fixed month `t_ext_start = 12` towards
`nb_med_new`; otherwise the second wave is the zero array. -/
def med_t (st : ScenarioState) (p : Params) (n : ℕ) : ℝ :=
  sigmoid_acquisition n 0 p.nb_med_target ACQ_LENGTH
    + (if st.extension_active then sigmoid_acquisition n 12 p.nb_med_new ACQ_LENGTH
       else 0)

/-- Embedding of `c_t`: the combined curve when a campaign month is stored in
the session state, the base inverted-drop curve otherwise. -/
def c_t (st : ScenarioState) (n : ℕ) : ℝ :=
  match st.vm_month with
  | some vm => confidence_with_vm_inverted n (some (vm : ℝ)) CONF_T CONF_P
  | none => confidence_inverted_drop n CONF_T CONF_P

/-- Embedding of `taux_trait = taux_trait_pct / 100.0`. -/
def taux_trait (p : Params) : ℝ := p.taux_trait_pct / 100

/-- Embedding of `diag_t = med_t * pot_diag * c_t`. -/
def diag_t (st : ScenarioState) (p : Params) (n : ℕ) : ℝ :=
  med_t st p n * p.pot_diag * c_t st n

/-- Embedding of `traites_t = diag_t * taux_trait`. -/
def traites_t (st : ScenarioState) (p : Params) (n : ℕ) : ℝ :=
  diag_t st p n * taux_trait p

/-- Embedding of `revenu_mensuel = traites_t * prix`. -/
def revenu_mensuel (st : ScenarioState) (p : Params) (n : ℕ) : ℝ :=
  traites_t st p n * p.prix

/-- Embedding of `revenu_cumule = np.cumsum(revenu_mensuel)`: entry `n` is
the sum of the monthly revenues over months `0..n`. -/
def revenu_cumule (st : ScenarioState) (p : Params) (n : ℕ) : ℝ :=
  ∑ i ∈ Finset.range (n + 1), revenu_mensuel st p i

/-- Modelled from the spec: the `dosesPerPatient` scenario parameter of the
general engine is absent from the source variant in `model.py`, whose price
is per treated patient, so it is fixed at 1 here. -/
def dosesPerPatient : ℝ := 1

/-- Embedding of the ROI expression
`(revenu_12m - COUT_PROJET) / COUT_PROJET if COUT_PROJET > 0 else None`,
with the cost as a parameter of the expression. -/
def roi_calc (cout rev12 : ℝ) : Option ℝ :=
  if cout > 0 then some ((rev12 - cout) / cout) else none

/-- Embedding of `revenu_12m = revenu_cumule[min(12, len(revenu_cumule)-1)]`:
the time axis is `0..horizon`, so the last index is `horizon`. -/
def revenu_12m (st : ScenarioState) (p : Params) : ℝ :=
  revenu_cumule st p (min 12 st.horizon)

/-- Embedding of `roi`, applied to the locked project cost. -/
def roi (st : ScenarioState) (p : Params) : Option ℝ :=
  roi_calc COUT_PROJET (revenu_12m st p)

end

/-! Helper lemmas shared by the claim theorems. -/

lemma confidence_inverted_drop_nonneg (t T p : ℝ) :
    0 ≤ confidence_inverted_drop t T p :=
  le_min zero_le_one (le_max_left 0 _)

lemma confidence_inverted_drop_le_one (t T p : ℝ) :
    confidence_inverted_drop t T p ≤ 1 :=
  min_le_left 1 _

lemma confidence_inverted_drop_of_mem {t T p : ℝ} (hT : 0 < T) (hp : 0 < p)
    (h0 : 0 ≤ t) (h1 : t ≤ T) :
    confidence_inverted_drop t T p = 1 - (t / T) ^ p := by
  have hx0 : 0 ≤ t / T := div_nonneg h0 hT.le
  have hx1 : t / T ≤ 1 := (div_le_one hT).mpr h1
  have hr0 : 0 ≤ (t / T) ^ p := Real.rpow_nonneg hx0 p
  have hr1 : (t / T) ^ p ≤ 1 := Real.rpow_le_one hx0 hx1 hp.le
  rw [confidence_inverted_drop, if_pos ⟨h0, h1⟩, max_eq_right (by linarith),
    min_eq_right (by linarith)]

lemma confidence_inverted_drop_of_gt {t T p : ℝ} (h : T < t) :
    confidence_inverted_drop t T p = 0 := by
  rw [confidence_inverted_drop, if_neg (by push_neg; intro _; linarith)]
  simp

lemma confidence_inverted_drop_zero {T p : ℝ} (hT : 0 < T) (hp : 0 < p) :
    confidence_inverted_drop 0 T p = 1 := by
  rw [confidence_inverted_drop_of_mem hT hp le_rfl hT.le, zero_div,
    Real.zero_rpow hp.ne', sub_zero]

lemma confidence_with_vm_inverted_nonneg (t : ℝ) (vm : Option ℝ) (T p : ℝ) :
    0 ≤ confidence_with_vm_inverted t vm T p := by
  cases vm with
  | none => exact confidence_inverted_drop_nonneg t T p
  | some vm => exact le_max_of_le_left (confidence_inverted_drop_nonneg t T p)

lemma confidence_with_vm_inverted_le_one (t : ℝ) (vm : Option ℝ) (T p : ℝ) :
    confidence_with_vm_inverted t vm T p ≤ 1 := by
  cases vm with
  | none => exact confidence_inverted_drop_le_one t T p
  | some vm =>
      exact max_le (confidence_inverted_drop_le_one t T p)
        (confidence_inverted_drop_le_one _ T p)

lemma c_t_nonneg (st : ScenarioState) (n : ℕ) : 0 ≤ c_t st n := by
  rw [c_t]
  cases st.vm_month with
  | none => exact confidence_inverted_drop_nonneg _ _ _
  | some vm => exact confidence_with_vm_inverted_nonneg _ _ _ _

lemma c_t_le_one (st : ScenarioState) (n : ℕ) : c_t st n ≤ 1 := by
  rw [c_t]
  cases st.vm_month with
  | none => exact confidence_inverted_drop_le_one _ _ _
  | some vm => exact confidence_with_vm_inverted_le_one _ _ _ _

lemma sigmoid_acquisition_nonneg (t s m L : ℝ) :
    0 ≤ sigmoid_acquisition t s m L := by
  rw [sigmoid_acquisition]
  split
  · exact le_rfl
  · rename_i h
    push_neg at h
    exact mul_nonneg h.2.le (le_min zero_le_one (le_max_left 0 _))

lemma sigmoid_acquisition_le_target {t s m L : ℝ} (hm : 0 ≤ m) :
    sigmoid_acquisition t s m L ≤ m := by
  rw [sigmoid_acquisition]
  split
  · exact hm
  · calc m * min 1 (max 0 _) ≤ m * 1 :=
        mul_le_mul_of_nonneg_left (min_le_left _ _) hm
      _ = m := mul_one m

lemma sigmoid_acquisition_pos {t s m L : ℝ} (hL : 0 < L) (hm : 0 < m) :
    0 < sigmoid_acquisition t s m L := by
  rw [sigmoid_acquisition, if_neg (by push_neg; exact ⟨hL, hm⟩)]
  have hs : 0 < 1 / (1 + Real.exp (-(2 * Real.log 99 / L) * (t - (s + L / 2)))) := by
    positivity
  exact mul_pos hm (lt_min one_pos (lt_max_of_lt_right hs))

lemma med_t_nonneg (st : ScenarioState) (p : Params) (n : ℕ) :
    0 ≤ med_t st p n := by
  rw [med_t]
  have h2 : 0 ≤ (if st.extension_active then
      sigmoid_acquisition n 12 p.nb_med_new ACQ_LENGTH else 0) := by
    split
    · exact sigmoid_acquisition_nonneg _ _ _ _
    · exact le_rfl
  exact add_nonneg (sigmoid_acquisition_nonneg _ _ _ _) h2

lemma revenu_mensuel_nonneg (st : ScenarioState) (p : Params) (n : ℕ)
    (hprix : 0 ≤ p.prix) (hpct : 0 ≤ p.taux_trait_pct) (hpot : 0 ≤ p.pot_diag) :
    0 ≤ revenu_mensuel st p n := by
  rw [revenu_mensuel, traites_t, diag_t, taux_trait]
  have htaux : 0 ≤ p.taux_trait_pct / 100 := by positivity
  exact mul_nonneg (mul_nonneg (mul_nonneg (mul_nonneg
    (med_t_nonneg st p n) hpot) (c_t_nonneg st n)) htaux) hprix

/-! Claim theorems. -/

/-- Claim C1: for every month on the time axis the engine computes
`diagnostics(t) = acquisition(t) * diagnosticPotentialPerPhysician * confidence(t)`,
`treated(t) = diagnostics(t) * treatmentRate`,
`monthlyRevenue(t) = treated(t) * dosesPerPatient * unitPrice` (the
doses-per-patient factor is 1 in this variant), and
`cumulativeRevenue(t)` is the running sum of the monthly revenues over
months `0..t`. -/
theorem C1_engine_pipeline (st : ScenarioState) (p : Params) (n : ℕ) :
    diag_t st p n = med_t st p n * p.pot_diag * c_t st n
    ∧ traites_t st p n = diag_t st p n * taux_trait p
    ∧ revenu_mensuel st p n = traites_t st p n * dosesPerPatient * p.prix
    ∧ revenu_cumule st p n = ∑ i ∈ Finset.range (n + 1), revenu_mensuel st p i := by
  refine ⟨rfl, rfl, ?_, rfl⟩
  rw [revenu_mensuel, dosesPerPatient, mul_one]

/-- Claim C2: the combined confidence curve is the pointwise maximum of the
base inverted-drop curve and the same curve re-anchored at the campaign
month `vm` (evaluated at `max 0 (t - vm)`); with no campaign it is the base
curve; and with a campaign at month `vm`, for `0 ≤ vm ≤ cutoff` and positive
cutoff and exponent, the combined confidence at month `vm` equals 1. -/
theorem C2_combine_by_campaign :
    (∀ t vm T p : ℝ, confidence_with_vm_inverted t (some vm) T p
        = max (confidence_inverted_drop t T p)
            (confidence_inverted_drop (max 0 (t - vm)) T p))
    ∧ (∀ t T p : ℝ, confidence_with_vm_inverted t none T p
        = confidence_inverted_drop t T p)
    ∧ (∀ vm T p : ℝ, 0 ≤ vm → vm ≤ T → 0 < T → 0 < p →
        confidence_with_vm_inverted vm (some vm) T p = 1) := by
  refine ⟨fun t vm T p => rfl, fun t T p => rfl, fun vm T p _ _ hT hp => ?_⟩
  rw [confidence_with_vm_inverted]
  have hvm : max 0 (vm - vm) = 0 := by rw [sub_self, max_self]
  rw [hvm, confidence_inverted_drop_zero hT hp]
  exact max_eq_right (confidence_inverted_drop_le_one vm T p)

/-- Witness for C2 at the campaign month 6 with the locked cutoff 10 and
exponent 3. -/
theorem C2_combine_by_campaign_witness :
    0 ≤ (6 : ℝ) ∧ (6 : ℝ) ≤ 10 ∧ 0 < (10 : ℝ) ∧ 0 < (3 : ℝ)
    ∧ confidence_with_vm_inverted 6 (some 6) 10 3 = 1 :=
  ⟨by norm_num, by norm_num, by norm_num, by norm_num,
    C2_combine_by_campaign.2.2 6 10 3 (by norm_num) (by norm_num)
      (by norm_num) (by norm_num)⟩

/-- Claim C3: the horizon starts at 12; each `ExtendHorizon` event sets the
extension flag and adds exactly 12 months (so one event yields horizon 24),
and the acquisition series is always the base wave anchored at month 0 plus,
exactly when the flag is set, one extension wave anchored at the fixed month
12 — no further waves regardless of how many extensions occurred. -/
theorem C3_extension_state (s : ScenarioState) (p : Params) (n : ℕ) :
    initState.horizon = 12
    ∧ (step s .ExtendHorizon).extension_active = true
    ∧ (step s .ExtendHorizon).horizon = s.horizon + 12
    ∧ (step initState .ExtendHorizon).horizon = 24
    ∧ med_t s p n = sigmoid_acquisition n 0 p.nb_med_target ACQ_LENGTH
        + (if s.extension_active then
            sigmoid_acquisition n 12 p.nb_med_new ACQ_LENGTH else 0)
    ∧ med_t (step (step s .ExtendHorizon) .ExtendHorizon) p n
        = sigmoid_acquisition n 0 p.nb_med_target ACQ_LENGTH
          + sigmoid_acquisition n 12 p.nb_med_new ACQ_LENGTH := by
  refine ⟨rfl, rfl, rfl, rfl, rfl, ?_⟩
  simp [med_t, step]

/-- Claim C4: at every month, for every session state and every parameter
bundle, the confidence value lies in `[0, 1]` and the acquisition value is
non-negative. -/
theorem C4_curve_bounds (st : ScenarioState) (p : Params) (n : ℕ) :
    0 ≤ c_t st n ∧ c_t st n ≤ 1 ∧ 0 ≤ med_t st p n :=
  ⟨c_t_nonneg st n, c_t_le_one st n, med_t_nonneg st p n⟩

/-- Claim C5: with positive cutoff `T` and positive exponent `p`, the
inverted-power confidence equals `1 - (t/T)^p` on `0 ≤ t ≤ T`, equals 0 for
`t > T`, and in particular equals 1 at `t = 0` and 0 at `t = T`. -/
theorem C5_inverted_power (T p : ℝ) (hT : 0 < T) (hp : 0 < p) :
    (∀ t : ℝ, 0 ≤ t → t ≤ T → confidence_inverted_drop t T p = 1 - (t / T) ^ p)
    ∧ (∀ t : ℝ, T < t → confidence_inverted_drop t T p = 0)
    ∧ confidence_inverted_drop 0 T p = 1
    ∧ confidence_inverted_drop T T p = 0 := by
  refine ⟨fun t h0 h1 => confidence_inverted_drop_of_mem hT hp h0 h1,
    fun t h => confidence_inverted_drop_of_gt h,
    confidence_inverted_drop_zero hT hp, ?_⟩
  rw [confidence_inverted_drop_of_mem hT hp hT.le le_rfl, div_self hT.ne',
    Real.one_rpow, sub_self]

/-- Witness for C5 at the locked cutoff 10 and exponent 3. -/
theorem C5_inverted_power_witness :
    0 < (10 : ℝ) ∧ 0 < (3 : ℝ)
    ∧ confidence_inverted_drop 0 10 3 = 1
    ∧ confidence_inverted_drop 10 10 3 = 0 :=
  ⟨by norm_num, by norm_num,
    (C5_inverted_power 10 3 (by norm_num) (by norm_num)).2.2.1,
    (C5_inverted_power 10 3 (by norm_num) (by norm_num)).2.2.2⟩

/-- Claim C9: the sigmoid acquisition returns 0 at every month when the ramp
length or the target increment is non-positive, and otherwise its value at
every month lies in `[0, targetIncrement]`. -/
theorem C9_sigmoid_guard_and_bounds (t s m L : ℝ) :
    (L ≤ 0 ∨ m ≤ 0 → sigmoid_acquisition t s m L = 0)
    ∧ (0 < L → 0 < m →
        0 ≤ sigmoid_acquisition t s m L ∧ sigmoid_acquisition t s m L ≤ m) := by
  refine ⟨fun h => ?_, fun _ hm =>
    ⟨sigmoid_acquisition_nonneg t s m L, sigmoid_acquisition_le_target hm.le⟩⟩
  rw [sigmoid_acquisition, if_pos h]

/-- Witness for C9: the guard at ramp length 0, and the bounds at the locked
6-month ramp with target 5. -/
theorem C9_sigmoid_witness :
    ((0 : ℝ) ≤ 0 ∨ (5 : ℝ) ≤ 0) ∧ sigmoid_acquisition 3 0 5 0 = 0
    ∧ 0 < (6 : ℝ) ∧ 0 < (5 : ℝ)
    ∧ 0 ≤ sigmoid_acquisition 3 0 5 6 ∧ sigmoid_acquisition 3 0 5 6 ≤ 5 :=
  ⟨Or.inl le_rfl, (C9_sigmoid_guard_and_bounds 3 0 5 0).1 (Or.inl le_rfl),
    by norm_num, by norm_num,
    ((C9_sigmoid_guard_and_bounds 3 0 5 6).2 (by norm_num) (by norm_num)).1,
    ((C9_sigmoid_guard_and_bounds 3 0 5 6).2 (by norm_num) (by norm_num)).2⟩

/-- Claim C10: triggering a campaign never decreases confidence — at every
month the confidence with a campaign applied is at least the base confidence
without it, both at the session-state level and for the pure curve functions
at any real campaign month and shape parameters. -/
theorem C10_campaign_monotone (h : ℕ) (vm : ℕ) (e : Bool) (n : ℕ)
    (t vmr T p : ℝ) :
    c_t ⟨h, none, e⟩ n ≤ c_t ⟨h, some vm, e⟩ n
    ∧ confidence_inverted_drop t T p
        ≤ confidence_with_vm_inverted t (some vmr) T p :=
  ⟨le_max_left _ _, le_max_left _ _⟩

/-- Parameter bundle with non-negative price (1), treatment rate 100 % (rate
1, inside `[0, 1]`), but a negative diagnostic potential (-1): a setting the
claimed sufficient condition for monotone cumulative revenue accepts. -/
def pNegPot : Params := ⟨1, 50, -1, 100, 0⟩

/-- Counterexample to claim C6 as stated: at the bundle `pNegPot` the unit
price and the treatment rate are non-negative (and the rate lies in
`[0, 1]`; the doses-per-patient factor is 1), yet the cumulative revenue at
month 1 is strictly below the cumulative revenue at month 0, because the
negative diagnostic potential makes every productive month lose revenue. -/
theorem C6_cumulative_counterexample :
    0 ≤ pNegPot.prix ∧ 0 ≤ taux_trait pNegPot ∧ taux_trait pNegPot ≤ 1
    ∧ revenu_cumule initState pNegPot 1 < revenu_cumule initState pNegPot 0 := by
  refine ⟨by norm_num [pNegPot], by norm_num [pNegPot, taux_trait],
    by norm_num [pNegPot, taux_trait], ?_⟩
  have hmed : 0 < med_t initState pNegPot 1 := by
    have h := @sigmoid_acquisition_pos ((1 : ℕ) : ℝ) 0 pNegPot.nb_med_target
      ACQ_LENGTH (by norm_num [ACQ_LENGTH]) (by norm_num [pNegPot])
    rw [med_t]
    have hif : (if initState.extension_active = true then
        sigmoid_acquisition ((1 : ℕ) : ℝ) 12 pNegPot.nb_med_new ACQ_LENGTH
        else 0) = 0 := by
      rw [if_neg]
      simp [initState]
    rw [hif, add_zero]
    exact h
  have hc : 0 < c_t initState 1 := by
    have heq : c_t initState 1 = confidence_inverted_drop ((1 : ℕ) : ℝ) CONF_T CONF_P := rfl
    rw [heq, confidence_inverted_drop_of_mem (by norm_num [CONF_T])
      (by norm_num [CONF_P]) (by norm_num) (by norm_num [CONF_T])]
    have hlt : (((1 : ℕ) : ℝ) / CONF_T) ^ CONF_P < 1 :=
      Real.rpow_lt_one (by norm_num [CONF_T]) (by norm_num [CONF_T])
        (by norm_num [CONF_P])
    linarith
  have hrev : revenu_mensuel initState pNegPot 1 < 0 := by
    have hshow : revenu_mensuel initState pNegPot 1
        = med_t initState pNegPot 1 * (-1) * c_t initState 1 * (100 / 100) * 1 := rfl
    rw [hshow]
    nlinarith [hmed, hc]
  have h0 : revenu_cumule initState pNegPot 0 = revenu_mensuel initState pNegPot 0 := by
    rw [revenu_cumule, Finset.sum_range_one]
  have h1 : revenu_cumule initState pNegPot 1
      = revenu_mensuel initState pNegPot 0 + revenu_mensuel initState pNegPot 1 := by
    rw [revenu_cumule, Finset.sum_range_succ, Finset.sum_range_one]
  rw [h0, h1]
  linarith

/-- Claim C6 (amended): the stated sufficient condition must also include a
non-negative per-physician diagnostic potential. Whenever the unit price,
the treatment-rate percentage, and the diagnostic potential are all
non-negative (the doses-per-patient factor is fixed at 1), every monthly
revenue is non-negative and the cumulative revenue is non-decreasing over
the whole time axis. -/
theorem C6_cumulative_monotone (st : ScenarioState) (p : Params)
    (hprix : 0 ≤ p.prix) (hpct : 0 ≤ p.taux_trait_pct) (hpot : 0 ≤ p.pot_diag)
    (m n : ℕ) (hmn : m ≤ n) :
    revenu_cumule st p m ≤ revenu_cumule st p n := by
  rw [revenu_cumule, revenu_cumule]
  refine Finset.sum_le_sum_of_subset_of_nonneg
    (Finset.range_subset.mpr (by omega)) ?_
  intro i _ _
  exact revenu_mensuel_nonneg st p i hprix hpct hpot

/-- Witness for the amended C6 at the default dashboard parameters. -/
theorem C6_cumulative_monotone_witness :
    0 ≤ (Params.mk 120 50 5 40 0).prix
    ∧ 0 ≤ (Params.mk 120 50 5 40 0).taux_trait_pct
    ∧ 0 ≤ (Params.mk 120 50 5 40 0).pot_diag
    ∧ (0 : ℕ) ≤ 1
    ∧ revenu_cumule initState (Params.mk 120 50 5 40 0) 0
        ≤ revenu_cumule initState (Params.mk 120 50 5 40 0) 1 :=
  ⟨by norm_num, by norm_num, by norm_num, by norm_num,
    C6_cumulative_monotone initState (Params.mk 120 50 5 40 0)
      (by norm_num) (by norm_num) (by norm_num) 0 1 (by norm_num)⟩

/-- Claim C7: the ROI expression yields `some ((rev12 - cost) / cost)` for
every positive cost, yields the explicit non-applicable value `none` when
the cost is 0 (never a coerced number), and the ROI of the session reads the
cumulative revenue exactly at month 12 whenever the horizon is at least 12
(it always is: the horizon starts at 12 and only grows). -/
theorem C7_roi_contract (cout rev12 : ℝ) (st : ScenarioState) (p : Params)
    (h12 : 12 ≤ st.horizon) :
    (0 < cout → roi_calc cout rev12 = some ((rev12 - cout) / cout))
    ∧ (cout = 0 → roi_calc cout rev12 = none)
    ∧ roi st p = roi_calc COUT_PROJET (revenu_cumule st p 12) := by
  refine ⟨fun h => ?_, fun h => ?_, ?_⟩
  · rw [roi_calc, if_pos h]
  · rw [roi_calc, if_neg]
    rw [h]
    exact lt_irrefl 0
  · rw [roi, revenu_12m, min_eq_left h12]

/-- Witness for C7 at the locked project cost, a zero cost, and the initial
session state. -/
theorem C7_roi_contract_witness :
    0 < (50000 : ℝ)
    ∧ roi_calc 50000 60000 = some ((60000 - 50000) / 50000)
    ∧ (0 : ℝ) = 0 ∧ roi_calc 0 7 = none
    ∧ 12 ≤ initState.horizon
    ∧ roi initState (Params.mk 120 50 5 40 0)
        = roi_calc COUT_PROJET (revenu_cumule initState (Params.mk 120 50 5 40 0) 12) :=
  ⟨by norm_num,
    (C7_roi_contract 50000 60000 initState (Params.mk 120 50 5 40 0) le_rfl).1
      (by norm_num),
    rfl,
    (C7_roi_contract 0 7 initState (Params.mk 120 50 5 40 0) le_rfl).2.1 rfl,
    le_rfl,
    (C7_roi_contract 1 0 initState (Params.mk 120 50 5 40 0) le_rfl).2.2⟩

/-- Parameter bundle that claim C8 calls invalid: treatment rate 150 %
(outside `[0, 1]`) and a negative physician count. -/
def pInvalid : Params := ⟨1, -1, 5, 150, 0⟩

/-- Counterexample to claim C8 as stated: the engine is never reached by any
rejection — on the bundle `pInvalid`, whose treatment rate 1.5 lies outside
`[0, 1]` and whose physician count is negative, the computation runs to
completion: the rate is applied exactly as given (1.5, neither rejected nor
clamped) and the cumulative revenue at month 12 is produced as an ordinary
number. The source raises no validation error anywhere; ranges are only
constrained by the sidebar widgets. -/
theorem C8_counterexample :
    1 < taux_trait pInvalid
    ∧ taux_trait pInvalid = 150 / 100
    ∧ pInvalid.nb_med_target < 0
    ∧ traites_t initState pInvalid 0 = diag_t initState pInvalid 0 * (150 / 100)
    ∧ revenu_cumule initState pInvalid 12 = 0 := by
  have hmed : ∀ n : ℕ, med_t initState pInvalid n = 0 := by
    intro n
    rw [med_t]
    have h1 : sigmoid_acquisition (n : ℝ) 0 pInvalid.nb_med_target ACQ_LENGTH = 0 := by
      rw [sigmoid_acquisition, if_pos (Or.inr (by norm_num [pInvalid]))]
    rw [h1]
    have hif : (if initState.extension_active = true then
        sigmoid_acquisition (n : ℝ) 12 pInvalid.nb_med_new ACQ_LENGTH
        else 0) = 0 := by
      rw [if_neg]
      simp [initState]
    rw [hif, add_zero]
  have hrev : ∀ n : ℕ, revenu_mensuel initState pInvalid n = 0 := by
    intro n
    rw [revenu_mensuel, traites_t, diag_t, hmed n, zero_mul, zero_mul,
      zero_mul, zero_mul]
  refine ⟨by norm_num [pInvalid, taux_trait], by norm_num [pInvalid, taux_trait],
    by norm_num [pInvalid], rfl, ?_⟩
  rw [revenu_cumule]
  exact Finset.sum_eq_zero fun i _ => hrev i

/-- Claim C8 (amended): the source performs no parameter validation — no
bundle is rejected and no validation error is raised; out-of-range values
are prevented only by the sidebar widget bounds in the presentation layer,
and the engine accepts every bundle, applying the treatment rate exactly as
supplied (`pct / 100`, unclamped) in the treated-patient series. -/
theorem C8_rate_applied_unvalidated (st : ScenarioState) (p : Params) (n : ℕ) :
    taux_trait p = p.taux_trait_pct / 100
    ∧ traites_t st p n = diag_t st p n * (p.taux_trait_pct / 100) :=
  ⟨rfl, rfl⟩

end Modelfer
